import Mathlib

/-!
Shallow embedding of the OAuth2 token-lifecycle subsystem of pantry-agent
(`src/services/auth.service.ts` and the token-request parameter construction
of `src/api/client.ts`).

The TypeScript `AuthService` keeps an in-memory app token, a persisted user
credential in a JSON file, and a pending-login coordinator (HTTP callback
listener plus timeout).  We model:

  * the token file as `Option FileContent` (absent / JSON text / invalid
    text / unreadable),
  * JSON values as an inductive `Json` (the file is parsed with `JSON.parse`
    and cast, with no shape validation, so reads are modelled at the `Json`
    level),
  * time as `Int` epoch milliseconds,
  * the injected token-exchange capability as a function returning
    `Except String TokenResponse` (an exception or a response),
  * network effects by returning, besides the result and the new state, the
    list of exchange requests issued during the call.
-/

namespace PantryAgent

/-- `expires_in` responses and epoch-millisecond timestamps are JS numbers;
we model them as integers. -/
abbrev EpochMs := Int

/-- Buffer time before token expiration (5 minutes), `TOKEN_REFRESH_BUFFER_MS`. -/
def TOKEN_REFRESH_BUFFER_MS : Int := 5 * 60 * 1000

/-- OAuth token endpoint response (`TokenResponse` in `api/types.ts`):
`access_token`, `expires_in` (seconds), optional `refresh_token`. -/
structure TokenResponse where
  access_token : String
  expires_in : Int
  refresh_token : Option String
deriving Repr, DecidableEq

/-- Persisted user credential (`StoredTokens` in `api/types.ts`):
`accessToken`, optional `refreshToken`, `expiresAt` epoch ms, `scope`. -/
structure StoredTokens where
  accessToken : String
  refreshToken : Option String
  expiresAt : EpochMs
  scope : String
deriving Repr, DecidableEq

/-- JSON values, for modelling `JSON.parse` / `JSON.stringify` of the token
file at the tree level. -/
inductive Json where
  | null : Json
  | bool (b : Bool) : Json
  | num (n : Int) : Json
  | str (s : String) : Json
  | arr (elems : List Json) : Json
  | obj (fields : List (String × Json)) : Json
deriving Repr

/-- Look up a field of a JSON object (`undefined` = `none` for non-objects or
missing keys). -/
def Json.getField : Json → String → Option Json
  | Json.obj fields, k => (fields.find? (fun p => p.1 == k)).map (·.2)
  | _, _ => none

/-- `JSON.stringify` of a `StoredTokens` record, at the tree level.
A `refreshToken` that is `undefined` is omitted from the serialized object. -/
def encodeStoredTokens (t : StoredTokens) : Json :=
  Json.obj ([("accessToken", Json.str t.accessToken)]
    ++ (match t.refreshToken with
        | some r => [("refreshToken", Json.str r)]
        | none => [])
    ++ [("expiresAt", Json.num t.expiresAt), ("scope", Json.str t.scope)])

/-- Reading a JSON value back as a `StoredTokens` record: the "expected
shape" of the credential file.  The TypeScript source performs no such
validation (it casts), so this decoder is what lets us state deep equality
of a parsed credential with the record that was written. -/
def decodeStoredTokens (j : Json) : Option StoredTokens :=
  match j.getField "accessToken", j.getField "expiresAt", j.getField "scope" with
  | some (Json.str a), some (Json.num e), some (Json.str sc) =>
    match j.getField "refreshToken" with
    | some (Json.str r) => some ⟨a, some r, e, sc⟩
    | none => some ⟨a, none, e, sc⟩
    | some _ => none
  | _, _, _ => none

/-- Content of the token file when it exists: text that parses as JSON,
text that is not valid JSON (e.g. the empty string written by `clearTokens`),
or a file whose read throws. -/
inductive FileContent where
  | jsonText (j : Json) : FileContent
  | invalidText (s : String) : FileContent
  | unreadable : FileContent
deriving Repr

/-- The token-file state: `none` when `TOKENS_FILE` does not exist. -/
abbrev TokenFile := Option FileContent

/-- `AuthService.getStoredTokens`: returns `null` when the file does not
exist; otherwise `readFileSync` + `JSON.parse` inside `try`, returning
`null` when either throws.  The parsed value is cast (`as StoredTokens`)
with no shape validation, so the result is the raw parsed JSON. -/
def getStoredTokens : TokenFile → Option Json
  | none => none
  | some (FileContent.jsonText j) => some j
  | some (FileContent.invalidText _) => none
  | some FileContent.unreadable => none

/-- `AuthService.storeTokens`: overwrites the token file with the
serialized credential. -/
def storeTokens (tokens : StoredTokens) (_fs : TokenFile) : TokenFile :=
  some (FileContent.jsonText (encodeStoredTokens tokens))

/-- `AuthService.clearTokens`: if the file exists, overwrites it with the
empty string (which is not valid JSON); otherwise does nothing. -/
def clearTokens : TokenFile → TokenFile
  | none => none
  | some _ => some (FileContent.invalidText "")

/-- JS truthiness of a `string | undefined | null` value: `undefined`,
`null` and the empty string are falsy. -/
def jsTruthy : Option String → Bool
  | none => false
  | some s => !(s == "")

/-- The in-memory app token (`this.appToken`): access token plus
`expiresAt` epoch ms. -/
structure AppTok where
  accessToken : String
  expiresAt : EpochMs
deriving Repr, DecidableEq

/-- The fresh-token path of `AuthService.getAppToken`: call
`client.getClientToken(scope)`; on success cache
`{accessToken, expiresAt := now + expires_in * 1000}` and return the access
token; on failure propagate the error and leave the cache untouched.
The third component records the client-credentials exchanges issued
(by requested scope). -/
def getAppTokenFetch (cache : Option AppTok) (now : EpochMs) (scope : String)
    (exch : String → Except String TokenResponse) :
    Except String String × Option AppTok × List String :=
  match exch scope with
  | Except.ok r =>
    (Except.ok r.access_token,
     some { accessToken := r.access_token, expiresAt := now + r.expires_in * 1000 },
     [scope])
  | Except.error e => (Except.error e, cache, [scope])

/-- `AuthService.getAppToken`: return the cached token unchanged when
`expiresAt > now + TOKEN_REFRESH_BUFFER_MS`, otherwise fetch a new one. -/
def getAppToken (cache : Option AppTok) (now : EpochMs) (scope : String)
    (exch : String → Except String TokenResponse) :
    Except String String × Option AppTok × List String :=
  match cache with
  | some tok =>
    if tok.expiresAt > now + TOKEN_REFRESH_BUFFER_MS then
      (Except.ok tok.accessToken, some tok, [])
    else getAppTokenFetch cache now scope exch
  | none => getAppTokenFetch cache now scope exch

/-- `AuthService.getUserToken`: read the stored credential (absent →
`null`); if still valid return its access token; if no (truthy) refresh
token return `null`; otherwise exchange the refresh token — on success
persist the new credential (scope preserved, new pair, new expiry) and
return the new access token, on failure clear the stored credential and
return `null`.  The third component records the refresh tokens sent. -/
def getUserToken (fs : TokenFile) (now : EpochMs)
    (refreshExch : String → Except String TokenResponse) :
    Option String × TokenFile × List String :=
  match (getStoredTokens fs).bind decodeStoredTokens with
  | none => (none, fs, [])
  | some stored =>
    if stored.expiresAt > now + TOKEN_REFRESH_BUFFER_MS then
      (some stored.accessToken, fs, [])
    else if !(jsTruthy stored.refreshToken) then
      (none, fs, [])
    else
      match stored.refreshToken with
      | some rt =>
        match refreshExch rt with
        | Except.ok r =>
          let newTokens : StoredTokens :=
            { accessToken := r.access_token
              refreshToken := r.refresh_token
              expiresAt := now + r.expires_in * 1000
              scope := stored.scope }
          (some newTokens.accessToken, storeTokens newTokens fs, [rt])
        | Except.error _ => (none, clearTokens fs, [rt])
      | none => (none, fs, [])

/-- `AuthService.handleCallback`: the credential built from an
authorization-code exchange response (persisted via `storeTokens`). -/
def handleCallbackTokens (r : TokenResponse) (now : EpochMs) (scope : String) :
    StoredTokens :=
  { accessToken := r.access_token
    refreshToken := r.refresh_token
    expiresAt := now + r.expires_in * 1000
    scope := scope }

/-- The interactive-login coordinator state: whether the callback listener
is bound (`this.authServer !== null`), `this.authInProgress`,
`this.currentAuthUrl`, and the number of timeout timers scheduled with
`setTimeout` and not yet fired.  The source never stores the timer handle
and never calls `clearTimeout`, so no operation other than the timer firing
decreases `pendingTimers`. -/
structure CoordState where
  authServerOpen : Bool
  authInProgress : Bool
  currentAuthUrl : Option String
  pendingTimers : Nat
deriving Repr, DecidableEq

/-- `AuthService.cleanupAuthServer`: close the listener if open, reset
`authInProgress` and `currentAuthUrl`.  It does not touch the scheduled
timeout (there is no `clearTimeout` in the source). -/
def cleanupAuthServer (st : CoordState) : CoordState :=
  { st with authServerOpen := false, authInProgress := false, currentAuthUrl := none }

/-- `AuthService.startAuthFlow`: if a flow is already in progress, return
the existing URL (regenerating it if `currentAuthUrl` was somehow cleared)
and change nothing; otherwise record the URL, bind the listener, schedule
the timeout, and return the URL.  `authUrl` models
`client.getAuthorizationUrl(REDIRECT_URI, scope)`. -/
def startAuthFlow (st : CoordState) (authUrl : String) : String × CoordState :=
  if st.authInProgress then
    (st.currentAuthUrl.getD authUrl, st)
  else
    (authUrl,
     { authServerOpen := true
       authInProgress := true
       currentAuthUrl := some authUrl
       pendingTimers := st.pendingTimers + 1 })

/-- Outcome of one HTTP request reaching (or not reaching) the callback
listener. -/
inductive CallbackOutcome where
  | success : CallbackOutcome
  | exchangeFailed : CallbackOutcome
  | errorCb : CallbackOutcome
  | malformed : CallbackOutcome
  | notFound : CallbackOutcome
  | ignored : CallbackOutcome
deriving Repr, DecidableEq

/-- The callback listener's request handler in `startAuthFlow`.  A request
is `ignored` when the listener is closed.  On `/callback`: a truthy `error`
parameter wins (400 page, cleanup); then a falsy `code` is malformed (400
page, cleanup); otherwise the code is exchanged — success persists the new
credential (200 page), an exchange error yields a 500 page — and cleanup
runs either way.  Other paths get 404 and no cleanup. -/
def handleRequest (st : CoordState) (fs : TokenFile) (path : String)
    (code err : Option String) (now : EpochMs) (scope : String)
    (exchCode : String → Except String TokenResponse) :
    CallbackOutcome × CoordState × TokenFile :=
  if !st.authServerOpen then
    (CallbackOutcome.ignored, st, fs)
  else if path = "/callback" then
    if jsTruthy err then
      (CallbackOutcome.errorCb, cleanupAuthServer st, fs)
    else if !(jsTruthy code) then
      (CallbackOutcome.malformed, cleanupAuthServer st, fs)
    else
      match code with
      | some c =>
        match exchCode c with
        | Except.ok r =>
          (CallbackOutcome.success, cleanupAuthServer st,
           storeTokens (handleCallbackTokens r now scope) fs)
        | Except.error _ =>
          (CallbackOutcome.exchangeFailed, cleanupAuthServer st, fs)
      | none => (CallbackOutcome.malformed, cleanupAuthServer st, fs)
  else
    (CallbackOutcome.notFound, st, fs)

/-- The scheduled timeout firing: the timer is consumed and
`cleanupAuthServer` runs. -/
def timerFire (st : CoordState) : CoordState :=
  cleanupAuthServer { st with pendingTimers := st.pendingTimers - 1 }

/-- `KrogerClient.getClientToken`, proxy mode: the JSON body sent to the
`authclienttoken` function is `{ scope: scope || 'product.compact' }` —
a falsy (`undefined` or empty) scope is replaced by `'product.compact'`. -/
def getClientTokenProxyBody (scope : Option String) : List (String × String) :=
  [("scope", match scope with
             | some s => if s == "" then "product.compact" else s
             | none => "product.compact")]

/-- `KrogerClient.getClientToken`, direct mode: the form parameters are
`{ grant_type: 'client_credentials', ...(scope && { scope }) }` — the
spread adds a `scope` key only when `scope` is truthy. -/
def getClientTokenDirectParams (scope : Option String) : List (String × String) :=
  [("grant_type", "client_credentials")]
    ++ (match scope with
        | some s => if s == "" then [] else [("scope", s)]
        | none => [])

/-! ### Helper lemmas -/

/-- Serialization round trip at the record level: decoding an encoded
credential yields the original record, for both shapes of `refreshToken`. -/
theorem decode_encode (t : StoredTokens) :
    decodeStoredTokens (encodeStoredTokens t) = some t := by
  cases t with
  | mk a rto e sc => cases rto <;> rfl

/-- Reading a file that holds an encoded credential and decoding it yields
the credential. -/
theorem read_encoded (t : StoredTokens) :
    (getStoredTokens (some (FileContent.jsonText (encodeStoredTokens t)))).bind
      decodeStoredTokens = some t := by
  simp [getStoredTokens, decode_encode]

/-! ### Claims -/

/-- C1: for a stored credential with `expiresAt ≤ now + 5min` and a
(non-empty) refresh token, `getUserToken` issues exactly one refresh
exchange with that token; on success it persists a new credential
preserving `scope`, taking `accessToken`/`refreshToken` from the response
(the old refresh token is discarded) and `expiresAt = now + expires_in *
1000`, and returns the new access token.  Likewise, when the app-token
cache is absent or stale, `getAppToken` issues one client-credentials
exchange and caches `expiresAt = now + expires_in * 1000`. -/
theorem getUserToken_getAppToken_refresh
    (stored : StoredTokens) (now : EpochMs) (rt : String)
    (exch : String → Except String TokenResponse) (r : TokenResponse)
    (cache : Option AppTok) (scope : String)
    (exchApp : String → Except String TokenResponse) (ra : TokenResponse)
    (hexp : stored.expiresAt ≤ now + TOKEN_REFRESH_BUFFER_MS)
    (hrt : stored.refreshToken = some rt) (hne : rt ≠ "")
    (hex : exch rt = Except.ok r)
    (hcache : ∀ tok, cache = some tok → tok.expiresAt ≤ now + TOKEN_REFRESH_BUFFER_MS)
    (hexApp : exchApp scope = Except.ok ra) :
    getUserToken (some (FileContent.jsonText (encodeStoredTokens stored))) now exch =
      (some r.access_token,
       some (FileContent.jsonText (encodeStoredTokens
         { accessToken := r.access_token
           refreshToken := r.refresh_token
           expiresAt := now + r.expires_in * 1000
           scope := stored.scope })),
       [rt]) ∧
    getAppToken cache now scope exchApp =
      (Except.ok ra.access_token,
       some { accessToken := ra.access_token, expiresAt := now + ra.expires_in * 1000 },
       [scope]) := by
  constructor
  · have hvalid : ¬ (stored.expiresAt > now + TOKEN_REFRESH_BUFFER_MS) := not_lt.mpr hexp
    have hbeq : (rt == "") = false := beq_eq_false_iff_ne.mpr hne
    unfold getUserToken
    rw [read_encoded]
    simp [hvalid, jsTruthy, hrt, hbeq, hex, storeTokens]
  · cases cache with
    | none => simp [getAppToken, getAppTokenFetch, hexApp]
    | some tok =>
      have hstale : ¬ (tok.expiresAt > now + TOKEN_REFRESH_BUFFER_MS) :=
        not_lt.mpr (hcache tok rfl)
      simp [getAppToken, hstale, getAppTokenFetch, hexApp]

/-- Witness for C1: a concrete stale credential with refresh token "rt0",
refreshed at `now = 0` with `expires_in = 3600`, and a concrete empty app
cache refreshed with `expires_in = 60`. -/
theorem getUserToken_getAppToken_refresh_witness :
    getUserToken
      (some (FileContent.jsonText (encodeStoredTokens ⟨"old", some "rt0", 1000, "sc"⟩)))
      0 (fun _ => Except.ok ⟨"new", 3600, some "rt1"⟩) =
      (some "new",
       some (FileContent.jsonText (encodeStoredTokens ⟨"new", some "rt1", 0 + 3600 * 1000, "sc"⟩)),
       ["rt0"]) ∧
    getAppToken none 0 "product.compact" (fun _ => Except.ok ⟨"app", 60, none⟩) =
      (Except.ok "app", some ⟨"app", 0 + 60 * 1000⟩, ["product.compact"]) :=
  getUserToken_getAppToken_refresh ⟨"old", some "rt0", 1000, "sc"⟩ 0 "rt0"
    (fun _ => Except.ok ⟨"new", 3600, some "rt1"⟩) ⟨"new", 3600, some "rt1"⟩
    none "product.compact" (fun _ => Except.ok ⟨"app", 60, none⟩) ⟨"app", 60, none⟩
    (by decide) rfl (by decide) rfl (by intro tok h; cases h) rfl

/-- C2: for a stored credential with `expiresAt ≤ now + 5min` and a
(non-empty) refresh token, when the refresh exchange throws,
`getUserToken` clears the persisted credential (the store afterwards reads
as absent) and returns absent; the failure is not propagated (the result
is the ordinary absent value, not an error). -/
theorem getUserToken_refresh_failure
    (stored : StoredTokens) (now : EpochMs) (rt : String)
    (exch : String → Except String TokenResponse) (e : String)
    (hexp : stored.expiresAt ≤ now + TOKEN_REFRESH_BUFFER_MS)
    (hrt : stored.refreshToken = some rt) (hne : rt ≠ "")
    (hex : exch rt = Except.error e) :
    getUserToken (some (FileContent.jsonText (encodeStoredTokens stored))) now exch =
      (none, some (FileContent.invalidText ""), [rt]) ∧
    getStoredTokens
      (getUserToken (some (FileContent.jsonText (encodeStoredTokens stored))) now exch).2.1 =
      none := by
  have hvalid : ¬ (stored.expiresAt > now + TOKEN_REFRESH_BUFFER_MS) := not_lt.mpr hexp
  have hbeq : (rt == "") = false := beq_eq_false_iff_ne.mpr hne
  have hrun :
      getUserToken (some (FileContent.jsonText (encodeStoredTokens stored))) now exch =
        (none, some (FileContent.invalidText ""), [rt]) := by
    unfold getUserToken
    rw [read_encoded]
    simp [hvalid, jsTruthy, hrt, hbeq, hex, clearTokens]
  exact ⟨hrun, by rw [hrun]; rfl⟩

/-- Witness for C2: a concrete stale credential whose refresh exchange
fails; the file is truncated and the read afterwards is absent. -/
theorem getUserToken_refresh_failure_witness :
    getUserToken
      (some (FileContent.jsonText (encodeStoredTokens ⟨"old", some "rt0", 1000, "sc"⟩)))
      0 (fun _ => Except.error "invalid_grant") =
      (none, some (FileContent.invalidText ""), ["rt0"]) ∧
    getStoredTokens
      (getUserToken
        (some (FileContent.jsonText (encodeStoredTokens ⟨"old", some "rt0", 1000, "sc"⟩)))
        0 (fun _ => Except.error "invalid_grant")).2.1 = none :=
  getUserToken_refresh_failure ⟨"old", some "rt0", 1000, "sc"⟩ 0 "rt0"
    (fun _ => Except.error "invalid_grant") "invalid_grant"
    (by decide) rfl (by decide) rfl

/-- C3: a cached app token with `expiresAt > now + 5min` is returned
unchanged by `getAppToken` for any scope argument, with no exchange issued
and the cache untouched; a stored credential with `expiresAt > now + 5min`
is returned unchanged by `getUserToken`, with no exchange issued and the
file untouched. -/
theorem valid_tokens_returned_without_exchange
    (tok : AppTok) (now : EpochMs) (scope : String)
    (exchApp : String → Except String TokenResponse)
    (stored : StoredTokens) (exch : String → Except String TokenResponse)
    (htok : tok.expiresAt > now + TOKEN_REFRESH_BUFFER_MS)
    (hstored : stored.expiresAt > now + TOKEN_REFRESH_BUFFER_MS) :
    getAppToken (some tok) now scope exchApp = (Except.ok tok.accessToken, some tok, []) ∧
    getUserToken (some (FileContent.jsonText (encodeStoredTokens stored))) now exch =
      (some stored.accessToken,
       some (FileContent.jsonText (encodeStoredTokens stored)), []) := by
  constructor
  · simp [getAppToken, htok]
  · unfold getUserToken
    rw [read_encoded]
    simp [hstored]

/-- Witness for C3: a concrete cached app token and stored credential far
from expiry at `now = 0`, with a scope different from anything previously
requested. -/
theorem valid_tokens_returned_without_exchange_witness :
    getAppToken (some ⟨"appTok", 10000000⟩) 0 "cart.basic:write"
      (fun _ => Except.error "unused") =
      (Except.ok "appTok", some ⟨"appTok", 10000000⟩, []) ∧
    getUserToken
      (some (FileContent.jsonText (encodeStoredTokens ⟨"userTok", some "rt", 10000000, "profile.compact"⟩)))
      0 (fun _ => Except.error "unused") =
      (some "userTok",
       some (FileContent.jsonText (encodeStoredTokens ⟨"userTok", some "rt", 10000000, "profile.compact"⟩)),
       []) :=
  valid_tokens_returned_without_exchange ⟨"appTok", 10000000⟩ 0 "cart.basic:write"
    (fun _ => Except.error "unused") ⟨"userTok", some "rt", 10000000, "profile.compact"⟩
    (fun _ => Except.error "unused") (by decide) (by decide)

/-- C4: for a stored credential with `expiresAt ≤ now + 5min` and no
refresh token, `getUserToken` returns absent, issues no exchange, and
leaves the persisted credential exactly as it was. -/
theorem getUserToken_no_refresh_token
    (stored : StoredTokens) (now : EpochMs)
    (exch : String → Except String TokenResponse)
    (hexp : stored.expiresAt ≤ now + TOKEN_REFRESH_BUFFER_MS)
    (hrt : stored.refreshToken = none) :
    getUserToken (some (FileContent.jsonText (encodeStoredTokens stored))) now exch =
      (none, some (FileContent.jsonText (encodeStoredTokens stored)), []) := by
  have hvalid : ¬ (stored.expiresAt > now + TOKEN_REFRESH_BUFFER_MS) := not_lt.mpr hexp
  unfold getUserToken
  rw [read_encoded]
  simp [hvalid, jsTruthy, hrt]

/-- Witness for C4: a concrete expired credential with no refresh token is
left in place and absent is returned. -/
theorem getUserToken_no_refresh_token_witness :
    getUserToken
      (some (FileContent.jsonText (encodeStoredTokens ⟨"old", none, 1000, "sc"⟩)))
      0 (fun _ => Except.ok ⟨"new", 3600, some "rt1"⟩) =
      (none, some (FileContent.jsonText (encodeStoredTokens ⟨"old", none, 1000, "sc"⟩)), []) :=
  getUserToken_no_refresh_token ⟨"old", none, 1000, "sc"⟩ 0
    (fun _ => Except.ok ⟨"new", 3600, some "rt1"⟩) (by decide) rfl

/-- C5 counterexample: the claim says every terminal transition cancels
the scheduled timeout timer.  Starting a flow from idle schedules one
timer; a successful callback closes the listener and resets to idle, but
the timer is still pending (`pendingTimers = 1`, not `0`) — the source
never calls `clearTimeout`. -/
theorem callback_cleanup_keeps_timer :
    (handleRequest (startAuthFlow ⟨false, false, none, 0⟩ "u").2 none "/callback"
        (some "c") none 0 "sc" (fun _ => Except.ok ⟨"a", 60, some "r"⟩)).2.1 =
      ⟨false, false, none, 1⟩ ∧
    (handleRequest (startAuthFlow ⟨false, false, none, 0⟩ "u").2 none "/callback"
        (some "c") none 0 "sc" (fun _ => Except.ok ⟨"a", 60, some "r"⟩)).2.1.pendingTimers ≠ 0 := by
  constructor
  · rfl
  · decide

/-- C5 amended: every terminal transition out of AwaitingCallback
(error callback, malformed callback, successful callback, callback with
failed exchange — and likewise the timeout) performs the same cleanup —
close the listener and reset the coordinator to idle — but does NOT cancel
the scheduled timeout timer (`pendingTimers` is unchanged); and after a
terminal transition every further request is ignored, so at most one
callback outcome fires per attempt. -/
theorem terminal_transitions_same_cleanup
    (st : CoordState) (fs : TokenFile) (code err : Option String)
    (now : EpochMs) (scope : String)
    (exch : String → Except String TokenResponse)
    (hopen : st.authServerOpen = true) :
    (handleRequest st fs "/callback" code err now scope exch).2.1 = cleanupAuthServer st ∧
    (cleanupAuthServer st).authServerOpen = false ∧
    (cleanupAuthServer st).authInProgress = false ∧
    (cleanupAuthServer st).currentAuthUrl = none ∧
    (cleanupAuthServer st).pendingTimers = st.pendingTimers ∧
    (timerFire st).authServerOpen = false ∧
    (timerFire st).authInProgress = false ∧
    (timerFire st).currentAuthUrl = none ∧
    (∀ (p : String) (c e : Option String) (fs2 : TokenFile),
      handleRequest (cleanupAuthServer st) fs2 p c e now scope exch =
        (CallbackOutcome.ignored, cleanupAuthServer st, fs2)) := by
  refine ⟨?_, rfl, rfl, rfl, rfl, rfl, rfl, rfl, ?_⟩
  · unfold handleRequest
    rw [hopen]
    cases herr : jsTruthy err with
    | true => simp [herr]
    | false =>
      cases hcode : jsTruthy code with
      | false => simp [herr, hcode]
      | true =>
        cases code with
        | none => simp [jsTruthy] at hcode
        | some c => cases hex : exch c <;> simp [herr, hcode, hex]
  · intro p c e fs2
    simp [handleRequest, cleanupAuthServer]

/-- Witness for C5 amended: a concrete awaiting-callback state receiving a
malformed callback. -/
theorem terminal_transitions_same_cleanup_witness :
    (handleRequest ⟨true, true, some "u", 1⟩ none "/callback" none none 0 "sc"
        (fun _ => Except.error "unused")).2.1 = cleanupAuthServer ⟨true, true, some "u", 1⟩ ∧
    (cleanupAuthServer ⟨true, true, some "u", 1⟩).authServerOpen = false ∧
    (cleanupAuthServer ⟨true, true, some "u", 1⟩).authInProgress = false ∧
    (cleanupAuthServer ⟨true, true, some "u", 1⟩).currentAuthUrl = none ∧
    (cleanupAuthServer ⟨true, true, some "u", 1⟩).pendingTimers =
      (⟨true, true, some "u", 1⟩ : CoordState).pendingTimers ∧
    (timerFire ⟨true, true, some "u", 1⟩).authServerOpen = false ∧
    (timerFire ⟨true, true, some "u", 1⟩).authInProgress = false ∧
    (timerFire ⟨true, true, some "u", 1⟩).currentAuthUrl = none ∧
    (∀ (p : String) (c e : Option String) (fs2 : TokenFile),
      handleRequest (cleanupAuthServer ⟨true, true, some "u", 1⟩) fs2 p c e 0 "sc"
          (fun _ => Except.error "unused") =
        (CallbackOutcome.ignored, cleanupAuthServer ⟨true, true, some "u", 1⟩, fs2)) :=
  terminal_transitions_same_cleanup ⟨true, true, some "u", 1⟩ none none none 0 "sc"
    (fun _ => Except.error "unused") rfl

/-- C6: calling `startAuthFlow` while a login is already in progress
returns the existing authorization URL and leaves the whole coordinator
state unchanged — no second listener, no second timer. -/
theorem startAuthFlow_idempotent_reentry
    (st : CoordState) (u authUrl : String)
    (hprog : st.authInProgress = true) (hurl : st.currentAuthUrl = some u) :
    startAuthFlow st authUrl = (u, st) := by
  simp [startAuthFlow, hprog, hurl]

/-- Witness for C6: re-entering a concrete in-progress flow returns the
recorded URL and the identical state. -/
theorem startAuthFlow_idempotent_reentry_witness :
    startAuthFlow ⟨true, true, some "https://auth.example/u", 1⟩ "other" =
      ("https://auth.example/u", ⟨true, true, some "https://auth.example/u", 1⟩) :=
  startAuthFlow_idempotent_reentry ⟨true, true, some "https://auth.example/u", 1⟩
    "https://auth.example/u" "other" rfl rfl

/-- C7 counterexample: the claim says content that fails to parse as the
expected credential shape reads as absent.  The file content `{}` is valid
JSON that is not a credential record (`decodeStoredTokens` rejects it),
yet `getStoredTokens` returns it as a (malformed) value, not absent — the
source casts the parse result without validation. -/
theorem getStoredTokens_no_shape_validation :
    decodeStoredTokens (Json.obj []) = none ∧
    getStoredTokens (some (FileContent.jsonText (Json.obj []))) = some (Json.obj []) ∧
    getStoredTokens (some (FileContent.jsonText (Json.obj []))) ≠ none := by
  refine ⟨rfl, rfl, ?_⟩
  intro h
  simp [getStoredTokens] at h

/-- C7 amended: the read returns absent — and never throws — when the file
does not exist, when reading it throws, or when its content is not valid
JSON; content that is valid JSON is returned as parsed, without shape
validation. -/
theorem getStoredTokens_absent_cases (s : String) (j : Json) :
    getStoredTokens none = none ∧
    getStoredTokens (some FileContent.unreadable) = none ∧
    getStoredTokens (some (FileContent.invalidText s)) = none ∧
    getStoredTokens (some (FileContent.jsonText j)) = some j :=
  ⟨rfl, rfl, rfl, rfl⟩

/-- C8: writing a credential and then reading returns a value deep-equal
to it — the read yields exactly the serialized record, and decoding it
yields the original credential, including when `refreshToken` is absent. -/
theorem store_read_roundtrip (t : StoredTokens) (fs : TokenFile) :
    getStoredTokens (storeTokens t fs) = some (encodeStoredTokens t) ∧
    (getStoredTokens (storeTokens t fs)).bind decodeStoredTokens = some t := by
  refine ⟨rfl, ?_⟩
  simp [storeTokens, getStoredTokens, decode_encode]

/-- C9 counterexample: the claim says a present `error` query parameter
terminates the attempt as CallbackError and no code exchange is attempted
even when a `code` is also present.  A request with `error=` (present but
empty, so falsy) and `code=x` proceeds to the code exchange and terminates
as a successful callback, persisting a credential — not as CallbackError. -/
theorem callback_empty_error_not_error :
    (handleRequest ⟨true, true, some "u", 1⟩ none "/callback" (some "x") (some "")
        0 "sc" (fun _ => Except.ok ⟨"a", 60, some "r"⟩)).1 = CallbackOutcome.success ∧
    (handleRequest ⟨true, true, some "u", 1⟩ none "/callback" (some "x") (some "")
        0 "sc" (fun _ => Except.ok ⟨"a", 60, some "r"⟩)).1 ≠ CallbackOutcome.errorCb ∧
    (handleRequest ⟨true, true, some "u", 1⟩ none "/callback" (some "x") (some "")
        0 "sc" (fun _ => Except.ok ⟨"a", 60, some "r"⟩)).2.2 =
      storeTokens (handleCallbackTokens ⟨"a", 60, some "r"⟩ 0 "sc") none := by
  refine ⟨rfl, ?_, rfl⟩
  intro h
  exact CallbackOutcome.noConfusion h

/-- C9 amended: parameter tests are by JS truthiness, so empty-string
parameters count as absent.  A non-empty `error` terminates as
CallbackError with no code exchange (the result does not depend on the
exchange capability and the file is untouched); when `error` is absent or
empty and `code` is absent or empty, the attempt terminates as
CallbackMalformed; only a non-empty `code` with absent-or-empty `error`
triggers the authorization-code exchange and, on success, persistence of
the new credential. -/
theorem callback_error_precedence
    (st : CoordState) (fs : TokenFile) (code err : Option String)
    (now : EpochMs) (scope : String)
    (exch : String → Except String TokenResponse)
    (hopen : st.authServerOpen = true) :
    (∀ e, err = some e → e ≠ "" →
      handleRequest st fs "/callback" code err now scope exch =
        (CallbackOutcome.errorCb, cleanupAuthServer st, fs)) ∧
    (jsTruthy err = false → jsTruthy code = false →
      handleRequest st fs "/callback" code err now scope exch =
        (CallbackOutcome.malformed, cleanupAuthServer st, fs)) ∧
    (∀ c r, jsTruthy err = false → code = some c → c ≠ "" →
      exch c = Except.ok r →
      handleRequest st fs "/callback" code err now scope exch =
        (CallbackOutcome.success, cleanupAuthServer st,
         storeTokens (handleCallbackTokens r now scope) fs)) := by
  refine ⟨?_, ?_, ?_⟩
  · intro e he hne
    have hbeq : (e == "") = false := beq_eq_false_iff_ne.mpr hne
    simp [handleRequest, hopen, he, jsTruthy, hbeq]
  · intro herr hcode
    simp [handleRequest, hopen, herr, hcode]
  · intro c r herr hc hne hex
    have hb : (c == "") = false := beq_eq_false_iff_ne.mpr hne
    have hcode : jsTruthy (some c) = true := by simp [jsTruthy, hb]
    simp [handleRequest, hopen, herr, hc, hcode, hex]

/-- Witness for C9 amended: concrete callbacks — `error=denied`,
a request with neither parameter, and `code=xyz` with a successful
exchange. -/
theorem callback_error_precedence_witness :
    (∀ e, (some "denied" : Option String) = some e → e ≠ "" →
      handleRequest ⟨true, true, some "u", 1⟩ none "/callback" none (some "denied") 0 "sc"
          (fun _ => Except.ok ⟨"a", 60, some "r"⟩) =
        (CallbackOutcome.errorCb, cleanupAuthServer ⟨true, true, some "u", 1⟩, none)) ∧
    (jsTruthy (some "denied") = false → jsTruthy none = false →
      handleRequest ⟨true, true, some "u", 1⟩ none "/callback" none (some "denied") 0 "sc"
          (fun _ => Except.ok ⟨"a", 60, some "r"⟩) =
        (CallbackOutcome.malformed, cleanupAuthServer ⟨true, true, some "u", 1⟩, none)) ∧
    (∀ c r, jsTruthy (some "denied") = false → (none : Option String) = some c → c ≠ "" →
      ((fun _ => Except.ok ⟨"a", 60, some "r"⟩ : String → Except String TokenResponse)) c =
        Except.ok r →
      handleRequest ⟨true, true, some "u", 1⟩ none "/callback" none (some "denied") 0 "sc"
          (fun _ => Except.ok ⟨"a", 60, some "r"⟩) =
        (CallbackOutcome.success, cleanupAuthServer ⟨true, true, some "u", 1⟩,
         storeTokens (handleCallbackTokens r 0 "sc") none)) :=
  callback_error_precedence ⟨true, true, some "u", 1⟩ none none (some "denied") 0 "sc"
    (fun _ => Except.ok ⟨"a", 60, some "r"⟩) rfl

/-- C10: `getClientToken` never sends a literal empty scope: with the
empty-string scope (as the store-lookup operations pass), the direct-mode
form parameters carry no `scope` key at all, while the proxy-mode body
silently defaults the scope to `product.compact`. -/
theorem getClientToken_empty_scope_handling :
    (∀ scope : Option String,
      ("scope", "") ∉ getClientTokenDirectParams scope ∧
      ("scope", "") ∉ getClientTokenProxyBody scope) ∧
    getClientTokenDirectParams (some "") = [("grant_type", "client_credentials")] ∧
    getClientTokenProxyBody (some "") = [("scope", "product.compact")] := by
  refine ⟨?_, rfl, rfl⟩
  intro scope
  cases scope with
  | none => exact ⟨by simp [getClientTokenDirectParams], by simp [getClientTokenProxyBody]⟩
  | some s =>
    cases hs : s == "" with
    | true => exact ⟨by simp [getClientTokenDirectParams, hs], by simp [getClientTokenProxyBody, hs]⟩
    | false =>
      have hne : s ≠ "" := by
        intro h
        rw [h] at hs
        simp at hs
      refine ⟨?_, ?_⟩
      · simp [getClientTokenDirectParams, hs]
        intro h
        exact hne h.symm
      · simp [getClientTokenProxyBody, hs]
        intro h
        exact hne h.symm

end PantryAgent
